import Mathlib

/-!
Verification of the secret-bootstrap pipeline (`load_secrets` in
`pr_agent/servers/serverless.py`).

The effectful boundaries are modelled as explicit inputs:
 - the process environment is an association list threaded through the run;
 - the secret-store call (`boto3` client + `get_secret_value`) is a
   `FetchOutcome`: either an exception or a response carrying the optional
   `SecretString` field;
 - `json.loads` on the secret string is a `ParseOutcome`: either an exception
   or a parsed JSON object (association list of keys to JSON values).

`base64.b64decode` (CPython's lenient `binascii.a2b_base64`, non-strict mode:
non-alphabet bytes discarded, padding terminates a quad only when at least two
data characters are pending) and strict UTF-8 decoding (`bytes.decode`) are
modelled directly on character / byte lists.
-/

/-- A JSON scalar value, as produced by `json.loads` for object fields. -/
inductive JValue where
  | jstr (s : String)
  | jnum (n : Int)
  | jbool (b : Bool)
  | jnull
deriving DecidableEq, Repr

/-- Python's `str()` applied to a JSON scalar: identity on `str`, decimal for
`int`, `True`/`False` for booleans, `None` for null. -/
def pyStr : JValue → String
  | .jstr s => s
  | .jnum n => toString n
  | .jbool b => if b then "True" else "False"
  | .jnull => "None"

/-- The process environment (`os.environ`), as an association list. -/
abbrev Env := List (String × String)

/-- `os.environ.get k`. -/
def envGet (e : Env) (k : String) : Option String :=
  match e with
  | [] => none
  | (k', v) :: rest => if k' = k then some v else envGet rest k

/-- `os.environ[k] = v`: replace the existing binding or append a new one. -/
def envSet (e : Env) (k v : String) : Env :=
  match e with
  | [] => [(k, v)]
  | (k', v') :: rest => if k' = k then (k, v) :: rest else (k', v') :: envSet rest k v

/- ### Base64 (CPython `binascii.a2b_base64`, non-strict; `base64.b64encode`) -/

/-- Character of the standard base64 alphabet at index `n` (`n < 64`). -/
def b64chr (n : Nat) : Char :=
  if n < 26 then Char.ofNat (65 + n)
  else if n < 52 then Char.ofNat (97 + (n - 26))
  else if n < 62 then Char.ofNat (48 + (n - 52))
  else if n = 62 then '+' else '/'

/-- Index of a character in the standard base64 alphabet, `none` for
non-alphabet characters (which lenient decoding discards). -/
def b64val (c : Char) : Option Nat :=
  if 'A' ≤ c ∧ c ≤ 'Z' then some (c.toNat - 65)
  else if 'a' ≤ c ∧ c ≤ 'z' then some (c.toNat - 97 + 26)
  else if '0' ≤ c ∧ c ≤ '9' then some (c.toNat - 48 + 52)
  else if c = '+' then some 62
  else if c = '/' then some 63
  else none

/-- `base64.b64encode`: bytes (each `< 256`) to base64 characters, with
`=` padding. -/
def b64encodeChars : List Nat → List Char
  | [] => []
  | [b0] => [b64chr (b0 / 4), b64chr (b0 % 4 * 16), '=', '=']
  | [b0, b1] => [b64chr (b0 / 4), b64chr (b0 % 4 * 16 + b1 / 16), b64chr (b1 % 16 * 4), '=']
  | b0 :: b1 :: b2 :: rest =>
    b64chr (b0 / 4) :: b64chr (b0 % 4 * 16 + b1 / 16) ::
    b64chr (b1 % 16 * 4 + b2 / 64) :: b64chr (b2 % 64) :: b64encodeChars rest

/-- CPython's `binascii.a2b_base64` main loop (non-strict mode): `=` is
counted only once two data characters of the current quad are seen, and a
quad completed by padding terminates decoding; non-alphabet characters are
discarded; leftover data characters at the end are an error (`none`). -/
def a2b : List Char → Nat → Nat → Nat → List Nat → Option (List Nat)
  | [], quadPos, _, _, acc => if quadPos = 0 then some acc.reverse else none
  | c :: rest, quadPos, leftchar, pads, acc =>
    if c = '=' then
      if 2 ≤ quadPos then
        if 4 ≤ quadPos + (pads + 1) then some acc.reverse
        else a2b rest quadPos leftchar (pads + 1) acc
      else a2b rest quadPos leftchar pads acc
    else
      match b64val c with
      | none => a2b rest quadPos leftchar pads acc
      | some v =>
        match quadPos with
        | 0 => a2b rest 1 v 0 acc
        | 1 => a2b rest 2 (v % 16) 0 ((leftchar * 4 + v / 16) :: acc)
        | 2 => a2b rest 3 (v % 4) 0 ((leftchar * 16 + v / 4) :: acc)
        | _ => a2b rest 0 0 0 ((leftchar * 64 + v) :: acc)

/-- `base64.b64encode` producing a string. -/
def b64encodeStr (bs : List Nat) : String :=
  String.mk (b64encodeChars bs)

/-- `base64.b64decode` on a `str` argument: requires the string to be pure
ASCII (CPython's `_bytes_from_decode_data` calls `.encode('ascii')`), then
runs lenient `a2b_base64`. `none` models a raised exception. -/
def b64decodeStr (s : String) : Option (List Nat) :=
  if s.data.all (fun c => c.toNat < 128) then a2b s.data 0 0 0 [] else none

/- ### UTF-8 (Python `bytes.decode('utf-8')`, strict; `str.encode('utf-8')`) -/

/-- UTF-8 encoding of a single unicode scalar value. -/
def utf8EncodeCodepoint (n : Nat) : List Nat :=
  if n < 0x80 then [n]
  else if n < 0x800 then [0xC0 + n / 64, 0x80 + n % 64]
  else if n < 0x10000 then [0xE0 + n / 4096, 0x80 + n / 64 % 64, 0x80 + n % 64]
  else [0xF0 + n / 0x40000, 0x80 + n / 4096 % 64, 0x80 + n / 64 % 64, 0x80 + n % 64]

/-- `str.encode('utf-8')` on a character list. -/
def utf8EncodeList : List Char → List Nat
  | [] => []
  | c :: cs => utf8EncodeCodepoint c.toNat ++ utf8EncodeList cs

/-- `str.encode('utf-8')`. -/
def utf8Encode (s : String) : List Nat :=
  utf8EncodeList s.data

/-- Strict UTF-8 decoding of a byte list into characters: rejects stray
continuation bytes, overlong forms (`0xC0`/`0xC1` leads, 3- and 4-byte
encodings of small values), surrogates, values above `0x10FFFF`, and
truncated sequences. `none` models a raised `UnicodeDecodeError`. -/
def utf8DecodeAux : List Nat → Option (List Char)
  | [] => some []
  | b :: rest =>
    if b < 0x80 then (utf8DecodeAux rest).map (fun cs => Char.ofNat b :: cs)
    else if b < 0xC2 then none
    else if b < 0xE0 then
      match rest with
      | b1 :: rest2 =>
        if 0x80 ≤ b1 ∧ b1 < 0xC0 then
          (utf8DecodeAux rest2).map (fun cs => Char.ofNat ((b - 0xC0) * 64 + (b1 - 0x80)) :: cs)
        else none
      | [] => none
    else if b < 0xF0 then
      match rest with
      | b1 :: b2 :: rest3 =>
        if 0x80 ≤ b1 ∧ b1 < 0xC0 ∧ 0x80 ≤ b2 ∧ b2 < 0xC0 then
          let n := (b - 0xE0) * 4096 + (b1 - 0x80) * 64 + (b2 - 0x80)
          if n < 0x800 ∨ (0xD800 ≤ n ∧ n ≤ 0xDFFF) then none
          else (utf8DecodeAux rest3).map (fun cs => Char.ofNat n :: cs)
        else none
      | _ => none
    else if b < 0xF5 then
      match rest with
      | b1 :: b2 :: b3 :: rest4 =>
        if 0x80 ≤ b1 ∧ b1 < 0xC0 ∧ 0x80 ≤ b2 ∧ b2 < 0xC0 ∧ 0x80 ≤ b3 ∧ b3 < 0xC0 then
          let n := (b - 0xF0) * 0x40000 + (b1 - 0x80) * 4096 + (b2 - 0x80) * 64 + (b3 - 0x80)
          if n < 0x10000 ∨ 0x10FFFF < n then none
          else (utf8DecodeAux rest4).map (fun cs => Char.ofNat n :: cs)
        else none
      | _ => none
    else none

/-- `bytes.decode('utf-8')`. -/
def utf8Decode (bs : List Nat) : Option String :=
  (utf8DecodeAux bs).map String.mk

/- ### The bootstrap pipeline (`load_secrets`) -/

/-- The distinct `SecretLoadError` raise sites of `load_secrets`, with the
data each one interpolates into its message. -/
inductive SecretLoadError where
  /-- `SECRETS_NAME environment variable is not set`. -/
  | missingSecretsName
  /-- `No secret string found in secret: {secret_name}`. -/
  | noSecretString (secretName : String)
  /-- `Required secrets are missing: {', '.join(missing_secrets)}`. -/
  | missingSecrets (keys : List String)
  /-- `Failed to decode base64 private key: {str(e)}`. -/
  | decodeFailure (cause : String)
  /-- `Failed to load secrets: {str(e)}` (catch-all wrap). -/
  | unexpected (cause : String)
deriving DecidableEq, Repr

/-- The exact message string each raise site formats. -/
def SecretLoadError.message : SecretLoadError → String
  | .missingSecretsName => "SECRETS_NAME environment variable is not set"
  | .noSecretString secretName => "No secret string found in secret: " ++ secretName
  | .missingSecrets keys => "Required secrets are missing: " ++ String.intercalate ", " keys
  | .decodeFailure cause => "Failed to decode base64 private key: " ++ cause
  | .unexpected cause => "Failed to load secrets: " ++ cause

/-- `SECRET_ENV_MAPPING`: secret keys paired with the environment variable
names they are published under, in the source's insertion order. -/
def SECRET_ENV_MAPPING : List (String × String) :=
  [("openai_key", "DYNACONF_OPENAI__KEY"),
   ("github_app_id", "DYNACONF_GITHUB__APP_ID"),
   ("github_webhook_secret", "DYNACONF_GITHUB__WEBHOOK_SECRET"),
   ("github_private_key", "DYNACONF_GITHUB__PRIVATE_KEY")]

/-- A parsed JSON object (the secret bundle). -/
abbrev Bundle := List (String × JValue)

/-- Dictionary lookup in a parsed JSON object (`json.loads` keeps the last
occurrence of a duplicated key). -/
def bundleFind (bundle : Bundle) (k : String) : Option JValue :=
  match bundle with
  | [] => none
  | (k', v) :: rest =>
    match bundleFind rest k with
    | some r => some r
    | none => if k' = k then some v else none

/-- Outcome of the secret-store call (`session.client` + `get_secret_value`):
an exception, or a response whose `SecretString` field may be absent. -/
inductive FetchOutcome where
  | raise (msg : String)
  | response (secretString : Option String)

/-- Outcome of `json.loads` on the secret string: an exception, or a parsed
JSON object. -/
inductive ParseOutcome where
  | raise (msg : String)
  | object (bundle : Bundle)

/-- Result of a run of `load_secrets`: the returned mapping or the raised
error, the final process environment, and whether the secret store was
invoked. -/
structure LoadOutcome where
  result : Except SecretLoadError (List (String × String))
  env : Env
  fetched : Bool

/-- `base64.b64decode(value).decode('utf-8')` with `value` a JSON scalar:
non-strings raise a `TypeError`; a lenient-base64 or strict-UTF-8 failure
raises. `.error` carries the cause for the surrounding handler. -/
def decodePrivateKey (v : JValue) : Except String String :=
  match v with
  | .jstr s =>
    match b64decodeStr s with
    | none => .error "Invalid base64-encoded string"
    | some bytes =>
      match utf8Decode bytes with
      | none => .error "invalid utf-8 sequence"
      | some t => .ok t
  | _ => .error "argument should be a bytes-like object or ASCII string"

/-- One iteration body of the publication loop: decode `github_private_key`
(raising `SecretLoadError` on failure), then apply `str()`. -/
def resolveValue (k : String) (value : JValue) : Except SecretLoadError String :=
  if k = "github_private_key" then
    match decodePrivateKey value with
    | .error cause => .error (.decodeFailure cause)
    | .ok s => .ok (pyStr (.jstr s))
  else .ok (pyStr value)

/-- The `for secret_key, env_var in SECRET_ENV_MAPPING.items()` loop: writes
`os.environ[env_var]` one entry at a time; a decode failure aborts the loop,
keeping the writes already made. -/
def publishLoop (bundle : Bundle) : List (String × String) → Env → Option SecretLoadError × Env
  | [], env => (none, env)
  | (k, evar) :: rest, env =>
    match resolveValue k ((bundleFind bundle k).getD .jnull) with
    | .error e => (some e, env)
    | .ok s => publishLoop bundle rest (envSet env evar s)

/-- The `load_secrets` function: reads `SECRETS_NAME`, fetches the secret,
checks the `SecretString` field, parses it, collects the missing required
keys, and publishes every mapped value. Exceptions from the store call or
from `json.loads` are wrapped by the outer catch-all handler; raised
`SecretLoadError`s propagate unchanged. -/
def load_secrets (env0 : Env) (fetch : FetchOutcome) (parse : ParseOutcome) : LoadOutcome :=
  match envGet env0 "SECRETS_NAME" with
  | none => ⟨.error .missingSecretsName, env0, false⟩
  | some secretName =>
    if secretName = "" then ⟨.error .missingSecretsName, env0, false⟩
    else
      match fetch with
      | .raise msg => ⟨.error (.unexpected msg), env0, true⟩
      | .response secretString =>
        match secretString with
        | none => ⟨.error (.noSecretString secretName), env0, true⟩
        | some s =>
          if s = "" then ⟨.error (.noSecretString secretName), env0, true⟩
          else
            match parse with
            | .raise msg => ⟨.error (.unexpected msg), env0, true⟩
            | .object bundle =>
              let missing := (SECRET_ENV_MAPPING.map Prod.fst).filter
                  (fun k => (bundleFind bundle k).isNone)
              if missing.isEmpty then
                match publishLoop bundle SECRET_ENV_MAPPING env0 with
                | (some e, env1) => ⟨.error e, env1, true⟩
                | (none, env1) =>
                  ⟨.ok (SECRET_ENV_MAPPING.map (fun p => (p.2, (envGet env1 p.2).getD ""))),
                   env1, true⟩
              else ⟨.error (.missingSecrets missing), env0, true⟩

theorem b64val_b64chr : ∀ n < 64, b64val (b64chr n) = some n := by decide

theorem b64chr_ne_pad : ∀ n < 64, ¬ (b64chr n = '=') := by decide

theorem b64chr_ascii : ∀ n < 64, (b64chr n).toNat < 128 := by decide

theorem a2b_nil (lc pads : Nat) (acc : List Nat) : a2b [] 0 lc pads acc = some acc.reverse := by
  simp [a2b]

theorem a2b_step0 {c : Char} {v : Nat} (rest : List Char) (lc pads : Nat) (acc : List Nat)
    (hne : ¬ (c = '=')) (hc : b64val c = some v) :
    a2b (c :: rest) 0 lc pads acc = a2b rest 1 v 0 acc := by
  simp only [a2b, if_neg hne, hc]

theorem a2b_step1 {c : Char} {v : Nat} (rest : List Char) (lc pads : Nat) (acc : List Nat)
    {b l' : Nat} (hne : ¬ (c = '=')) (hc : b64val c = some v)
    (hemit : lc * 4 + v / 16 = b) (hleft : v % 16 = l') :
    a2b (c :: rest) 1 lc pads acc = a2b rest 2 l' 0 (b :: acc) := by
  simp only [a2b, if_neg hne, hc, hemit, hleft]

theorem a2b_step2 {c : Char} {v : Nat} (rest : List Char) (lc pads : Nat) (acc : List Nat)
    {b l' : Nat} (hne : ¬ (c = '=')) (hc : b64val c = some v)
    (hemit : lc * 16 + v / 4 = b) (hleft : v % 4 = l') :
    a2b (c :: rest) 2 lc pads acc = a2b rest 3 l' 0 (b :: acc) := by
  simp only [a2b, if_neg hne, hc, hemit, hleft]

theorem a2b_step3 {c : Char} {v : Nat} (rest : List Char) (lc pads : Nat) (acc : List Nat)
    {b : Nat} (hne : ¬ (c = '=')) (hc : b64val c = some v)
    (hemit : lc * 64 + v = b) :
    a2b (c :: rest) 3 lc pads acc = a2b rest 0 0 0 (b :: acc) := by
  simp only [a2b, if_neg hne, hc, hemit]

theorem a2b_pad_done (rest : List Char) {qp : Nat} (lc pads : Nat) (acc : List Nat)
    (hq : 2 ≤ qp) (hp : 4 ≤ qp + (pads + 1)) :
    a2b ('=' :: rest) qp lc pads acc = some acc.reverse := by
  simp only [a2b, if_pos rfl, if_pos hq, if_pos hp]
  simp

theorem a2b_pad_cont (rest : List Char) {qp : Nat} (lc pads : Nat) (acc : List Nat)
    (hq : 2 ≤ qp) (hp : ¬ (4 ≤ qp + (pads + 1))) :
    a2b ('=' :: rest) qp lc pads acc = a2b rest qp lc (pads + 1) acc := by
  simp only [a2b, if_pos rfl, if_pos hq, if_neg hp]
  simp

theorem a2b_b64encodeChars : ∀ (bs acc : List Nat), (∀ b ∈ bs, b < 256) →
    a2b (b64encodeChars bs) 0 0 0 acc = some (acc.reverse ++ bs)
  | [], acc, _ => by simp [b64encodeChars, a2b_nil]
  | [b0], acc, h => by
    have hb0 : b0 < 256 := h b0 (by simp)
    have h1 : b0 / 4 < 64 := by omega
    have h2 : b0 % 4 * 16 < 64 := by omega
    rw [show b64encodeChars [b0]
        = [b64chr (b0 / 4), b64chr (b0 % 4 * 16), '=', '='] from rfl]
    rw [a2b_step0 _ _ _ _ (b64chr_ne_pad _ h1) (b64val_b64chr _ h1)]
    rw [a2b_step1 _ _ _ _ (b64chr_ne_pad _ h2) (b64val_b64chr _ h2)
      (show b0 / 4 * 4 + b0 % 4 * 16 / 16 = b0 by omega) rfl]
    rw [a2b_pad_cont _ _ _ _ (by omega) (by omega)]
    rw [a2b_pad_done _ _ _ _ (by omega) (by omega)]
    simp
  | [b0, b1], acc, h => by
    have hb0 : b0 < 256 := h b0 (by simp)
    have hb1 : b1 < 256 := h b1 (by simp)
    have h1 : b0 / 4 < 64 := by omega
    have h2 : b0 % 4 * 16 + b1 / 16 < 64 := by omega
    have h3 : b1 % 16 * 4 < 64 := by omega
    rw [show b64encodeChars [b0, b1]
        = [b64chr (b0 / 4), b64chr (b0 % 4 * 16 + b1 / 16), b64chr (b1 % 16 * 4), '='] from rfl]
    rw [a2b_step0 _ _ _ _ (b64chr_ne_pad _ h1) (b64val_b64chr _ h1)]
    rw [a2b_step1 _ _ _ _ (b64chr_ne_pad _ h2) (b64val_b64chr _ h2)
      (show b0 / 4 * 4 + (b0 % 4 * 16 + b1 / 16) / 16 = b0 by omega)
      (show (b0 % 4 * 16 + b1 / 16) % 16 = b1 / 16 by omega)]
    rw [a2b_step2 _ _ _ _ (b64chr_ne_pad _ h3) (b64val_b64chr _ h3)
      (show b1 / 16 * 16 + b1 % 16 * 4 / 4 = b1 by omega) rfl]
    rw [a2b_pad_done _ _ _ _ (by omega) (by omega)]
    simp
  | b0 :: b1 :: b2 :: rest, acc, h => by
    have hb0 : b0 < 256 := h b0 (by simp)
    have hb1 : b1 < 256 := h b1 (by simp)
    have hb2 : b2 < 256 := h b2 (by simp)
    have h1 : b0 / 4 < 64 := by omega
    have h2 : b0 % 4 * 16 + b1 / 16 < 64 := by omega
    have h3 : b1 % 16 * 4 + b2 / 64 < 64 := by omega
    have h4 : b2 % 64 < 64 := by omega
    rw [show b64encodeChars (b0 :: b1 :: b2 :: rest)
        = b64chr (b0 / 4) :: b64chr (b0 % 4 * 16 + b1 / 16) ::
          b64chr (b1 % 16 * 4 + b2 / 64) :: b64chr (b2 % 64) :: b64encodeChars rest from rfl]
    rw [a2b_step0 _ _ _ _ (b64chr_ne_pad _ h1) (b64val_b64chr _ h1)]
    rw [a2b_step1 _ _ _ _ (b64chr_ne_pad _ h2) (b64val_b64chr _ h2)
      (show b0 / 4 * 4 + (b0 % 4 * 16 + b1 / 16) / 16 = b0 by omega)
      (show (b0 % 4 * 16 + b1 / 16) % 16 = b1 / 16 by omega)]
    rw [a2b_step2 _ _ _ _ (b64chr_ne_pad _ h3) (b64val_b64chr _ h3)
      (show b1 / 16 * 16 + (b1 % 16 * 4 + b2 / 64) / 4 = b1 by omega)
      (show (b1 % 16 * 4 + b2 / 64) % 4 = b2 / 64 by omega)]
    rw [a2b_step3 _ _ _ _ (b64chr_ne_pad _ h4) (b64val_b64chr _ h4)
      (show b2 / 64 * 64 + b2 % 64 = b2 by omega)]
    rw [a2b_b64encodeChars rest (b2 :: b1 :: b0 :: acc) (fun b hb => h b (by simp [hb]))]
    simp

theorem utf8DecodeAux_cons (b : Nat) (rest : List Nat) :
    utf8DecodeAux (b :: rest) =
    (if b < 0x80 then (utf8DecodeAux rest).map (fun cs => Char.ofNat b :: cs)
    else if b < 0xC2 then none
    else if b < 0xE0 then
      match rest with
      | b1 :: rest2 =>
        if 0x80 ≤ b1 ∧ b1 < 0xC0 then
          (utf8DecodeAux rest2).map (fun cs => Char.ofNat ((b - 0xC0) * 64 + (b1 - 0x80)) :: cs)
        else none
      | [] => none
    else if b < 0xF0 then
      match rest with
      | b1 :: b2 :: rest3 =>
        if 0x80 ≤ b1 ∧ b1 < 0xC0 ∧ 0x80 ≤ b2 ∧ b2 < 0xC0 then
          let n := (b - 0xE0) * 4096 + (b1 - 0x80) * 64 + (b2 - 0x80)
          if n < 0x800 ∨ (0xD800 ≤ n ∧ n ≤ 0xDFFF) then none
          else (utf8DecodeAux rest3).map (fun cs => Char.ofNat n :: cs)
        else none
      | _ => none
    else if b < 0xF5 then
      match rest with
      | b1 :: b2 :: b3 :: rest4 =>
        if 0x80 ≤ b1 ∧ b1 < 0xC0 ∧ 0x80 ≤ b2 ∧ b2 < 0xC0 ∧ 0x80 ≤ b3 ∧ b3 < 0xC0 then
          let n := (b - 0xF0) * 0x40000 + (b1 - 0x80) * 4096 + (b2 - 0x80) * 64 + (b3 - 0x80)
          if n < 0x10000 ∨ 0x10FFFF < n then none
          else (utf8DecodeAux rest4).map (fun cs => Char.ofNat n :: cs)
        else none
      | _ => none
    else none) := by
  match rest with
  | [] => rfl
  | [b1] => rfl
  | [b1, b2] => rfl
  | [b1, b2, b3] => rfl
  | b1 :: b2 :: b3 :: b4 :: rest2 => rfl

theorem utf8Step1 {b : Nat} (rest : List Nat) (h : b < 0x80) :
    utf8DecodeAux (b :: rest) = (utf8DecodeAux rest).map (fun cs => Char.ofNat b :: cs) := by
  rw [utf8DecodeAux_cons, if_pos h]

theorem utf8Step2 {b b1 : Nat} (rest : List Nat)
    (h1 : 0xC2 ≤ b) (h2 : b < 0xE0) (h3 : 0x80 ≤ b1) (h4 : b1 < 0xC0) :
    utf8DecodeAux (b :: b1 :: rest)
      = (utf8DecodeAux rest).map (fun cs => Char.ofNat ((b - 0xC0) * 64 + (b1 - 0x80)) :: cs) := by
  rw [utf8DecodeAux_cons, if_neg (by omega), if_neg (by omega), if_pos h2]
  simp only [if_pos (And.intro h3 h4)]

theorem utf8Step3 {b b1 b2 : Nat} (rest : List Nat)
    (h1 : 0xE0 ≤ b) (h2 : b < 0xF0) (h3 : 0x80 ≤ b1) (h4 : b1 < 0xC0)
    (h5 : 0x80 ≤ b2) (h6 : b2 < 0xC0)
    (h7 : ¬ ((b - 0xE0) * 4096 + (b1 - 0x80) * 64 + (b2 - 0x80) < 0x800
          ∨ (0xD800 ≤ (b - 0xE0) * 4096 + (b1 - 0x80) * 64 + (b2 - 0x80)
             ∧ (b - 0xE0) * 4096 + (b1 - 0x80) * 64 + (b2 - 0x80) ≤ 0xDFFF))) :
    utf8DecodeAux (b :: b1 :: b2 :: rest)
      = (utf8DecodeAux rest).map
          (fun cs => Char.ofNat ((b - 0xE0) * 4096 + (b1 - 0x80) * 64 + (b2 - 0x80)) :: cs) := by
  rw [utf8DecodeAux_cons, if_neg (by omega), if_neg (by omega), if_neg (by omega), if_pos h2]
  simp only [if_pos (⟨h3, h4, h5, h6⟩ : _ ∧ _ ∧ _ ∧ _), if_neg h7]

theorem utf8Step4 {b b1 b2 b3 : Nat} (rest : List Nat)
    (h1 : 0xF0 ≤ b) (h2 : b < 0xF5) (h3 : 0x80 ≤ b1) (h4 : b1 < 0xC0)
    (h5 : 0x80 ≤ b2) (h6 : b2 < 0xC0) (h7 : 0x80 ≤ b3) (h8 : b3 < 0xC0)
    (h9 : ¬ ((b - 0xF0) * 0x40000 + (b1 - 0x80) * 4096 + (b2 - 0x80) * 64 + (b3 - 0x80) < 0x10000
          ∨ 0x10FFFF < (b - 0xF0) * 0x40000 + (b1 - 0x80) * 4096 + (b2 - 0x80) * 64 + (b3 - 0x80))) :
    utf8DecodeAux (b :: b1 :: b2 :: b3 :: rest)
      = (utf8DecodeAux rest).map
          (fun cs => Char.ofNat
            ((b - 0xF0) * 0x40000 + (b1 - 0x80) * 4096 + (b2 - 0x80) * 64 + (b3 - 0x80)) :: cs) := by
  rw [utf8DecodeAux_cons, if_neg (by omega), if_neg (by omega), if_neg (by omega),
    if_neg (by omega), if_pos h2]
  simp only [if_pos (⟨h3, h4, h5, h6, h7, h8⟩ : _ ∧ _ ∧ _ ∧ _ ∧ _ ∧ _), if_neg h9]

theorem utf8DecodeAux_encodeList : ∀ (cs : List Char),
    utf8DecodeAux (utf8EncodeList cs) = some cs
  | [] => rfl
  | c :: cs => by
    have ih := utf8DecodeAux_encodeList cs
    have hv : c.toNat < 0xd800 ∨ (0xdfff < c.toNat ∧ c.toNat < 0x110000) := c.valid
    rw [show utf8EncodeList (c :: cs) = utf8EncodeCodepoint c.toNat ++ utf8EncodeList cs from rfl]
    rcases Nat.lt_or_ge c.toNat 0x80 with h1 | h1
    · rw [show utf8EncodeCodepoint c.toNat = [c.toNat] from by
        rw [utf8EncodeCodepoint, if_pos h1]]
      rw [List.singleton_append, utf8Step1 _ h1, ih]
      simp
    · rcases Nat.lt_or_ge c.toNat 0x800 with h2 | h2
      · rw [show utf8EncodeCodepoint c.toNat = [0xC0 + c.toNat / 64, 0x80 + c.toNat % 64] from by
          rw [utf8EncodeCodepoint, if_neg (by omega), if_pos h2]]
        simp only [List.cons_append, List.singleton_append, List.nil_append]
        rw [utf8Step2 _ (by omega) (by omega) (by omega) (by omega)]
        rw [show (0xC0 + c.toNat / 64 - 0xC0) * 64 + (0x80 + c.toNat % 64 - 0x80) = c.toNat from
          by omega]
        rw [ih]; simp
      · rcases Nat.lt_or_ge c.toNat 0x10000 with h3 | h3
        · rw [show utf8EncodeCodepoint c.toNat
              = [0xE0 + c.toNat / 4096, 0x80 + c.toNat / 64 % 64, 0x80 + c.toNat % 64] from by
            rw [utf8EncodeCodepoint, if_neg (by omega), if_neg (by omega), if_pos h3]]
          simp only [List.cons_append, List.singleton_append, List.nil_append]
          rw [utf8Step3 _ (by omega) (by omega) (by omega) (by omega) (by omega) (by omega)
            (by omega)]
          rw [show (0xE0 + c.toNat / 4096 - 0xE0) * 4096 + (0x80 + c.toNat / 64 % 64 - 0x80) * 64
              + (0x80 + c.toNat % 64 - 0x80) = c.toNat from by omega]
          rw [ih]; simp
        · rw [show utf8EncodeCodepoint c.toNat
              = [0xF0 + c.toNat / 0x40000, 0x80 + c.toNat / 4096 % 64,
                 0x80 + c.toNat / 64 % 64, 0x80 + c.toNat % 64] from by
            rw [utf8EncodeCodepoint, if_neg (by omega), if_neg (by omega), if_neg (by omega)]]
          simp only [List.cons_append, List.singleton_append, List.nil_append]
          rw [utf8Step4 _ (by omega) (by omega) (by omega) (by omega) (by omega) (by omega)
            (by omega) (by omega) (by omega)]
          rw [show (0xF0 + c.toNat / 0x40000 - 0xF0) * 0x40000
              + (0x80 + c.toNat / 4096 % 64 - 0x80) * 4096
              + (0x80 + c.toNat / 64 % 64 - 0x80) * 64 + (0x80 + c.toNat % 64 - 0x80)
              = c.toNat from by omega]
          rw [ih]; simp

theorem utf8Decode_utf8Encode (s : String) : utf8Decode (utf8Encode s) = some s := by
  cases s with
  | mk data =>
    show (utf8DecodeAux (utf8EncodeList data)).map String.mk = some (String.mk data)
    rw [utf8DecodeAux_encodeList, Option.map_some']

theorem utf8EncodeCodepoint_lt (n : Nat) (hn : n < 0x110000) :
    ∀ b ∈ utf8EncodeCodepoint n, b < 256 := by
  intro b hb
  rw [utf8EncodeCodepoint] at hb
  split at hb
  · simp at hb; omega
  · split at hb
    · simp at hb; rcases hb with h | h <;> omega
    · split at hb
      · simp at hb; rcases hb with h | h | h <;> omega
      · simp at hb; rcases hb with h | h | h | h <;> omega

theorem utf8EncodeList_lt : ∀ (cs : List Char), ∀ b ∈ utf8EncodeList cs, b < 256
  | [] => by simp [utf8EncodeList]
  | c :: cs => by
    intro b hb
    rw [utf8EncodeList] at hb
    have hv : c.toNat < 0xd800 ∨ (0xdfff < c.toNat ∧ c.toNat < 0x110000) := c.valid
    rcases List.mem_append.mp hb with h | h
    · exact utf8EncodeCodepoint_lt c.toNat (by omega) b h
    · exact utf8EncodeList_lt cs b h

theorem b64encodeChars_ascii : ∀ (bs : List Nat), (∀ b ∈ bs, b < 256) →
    ∀ c ∈ b64encodeChars bs, c.toNat < 128
  | [], _ => by simp [b64encodeChars]
  | [b0], h => by
    have hb0 : b0 < 256 := h b0 (by simp)
    intro c hc
    rw [show b64encodeChars [b0] = [b64chr (b0 / 4), b64chr (b0 % 4 * 16), '=', '='] from rfl]
      at hc
    simp only [List.mem_cons] at hc
    rcases hc with h' | h' | h' | h' | h' <;>
      first
        | (subst h'; exact b64chr_ascii _ (by omega))
        | (subst h'; decide)
        | exact absurd h' (by simp)
  | [b0, b1], h => by
    have hb0 : b0 < 256 := h b0 (by simp)
    have hb1 : b1 < 256 := h b1 (by simp)
    intro c hc
    rw [show b64encodeChars [b0, b1]
        = [b64chr (b0 / 4), b64chr (b0 % 4 * 16 + b1 / 16), b64chr (b1 % 16 * 4), '='] from rfl]
      at hc
    simp only [List.mem_cons] at hc
    rcases hc with h' | h' | h' | h' | h' <;>
      first
        | (subst h'; exact b64chr_ascii _ (by omega))
        | (subst h'; decide)
        | exact absurd h' (by simp)
  | b0 :: b1 :: b2 :: rest, h => by
    have hb0 : b0 < 256 := h b0 (by simp)
    have hb1 : b1 < 256 := h b1 (by simp)
    have hb2 : b2 < 256 := h b2 (by simp)
    intro c hc
    rw [show b64encodeChars (b0 :: b1 :: b2 :: rest)
        = b64chr (b0 / 4) :: b64chr (b0 % 4 * 16 + b1 / 16) ::
          b64chr (b1 % 16 * 4 + b2 / 64) :: b64chr (b2 % 64) :: b64encodeChars rest from rfl]
      at hc
    simp only [List.mem_cons] at hc
    rcases hc with h' | h' | h' | h' | h'
    · subst h'; exact b64chr_ascii _ (by omega)
    · subst h'; exact b64chr_ascii _ (by omega)
    · subst h'; exact b64chr_ascii _ (by omega)
    · subst h'; exact b64chr_ascii _ (by omega)
    · exact b64encodeChars_ascii rest (fun b hb => h b (by simp [hb])) c h'

theorem b64decodeStr_b64encodeStr (bs : List Nat) (h : ∀ b ∈ bs, b < 256) :
    b64decodeStr (b64encodeStr bs) = some bs := by
  rw [b64decodeStr, b64encodeStr]
  rw [show (String.mk (b64encodeChars bs)).data = b64encodeChars bs from rfl]
  rw [if_pos (by
    rw [List.all_eq_true]
    intro c hc
    exact decide_eq_true (b64encodeChars_ascii bs h c hc))]
  rw [a2b_b64encodeChars bs [] h]
  simp

/-- The composite decoder round trip: base64-encoding the UTF-8 bytes of any
text and running the pipeline's private-key decoding recovers the text. -/
theorem decodePrivateKey_encode (P : String) :
    decodePrivateKey (.jstr (b64encodeStr (utf8Encode P))) = .ok P := by
  have h1 := b64decodeStr_b64encodeStr (utf8Encode P) (utf8EncodeList_lt P.data)
  have h2 := utf8Decode_utf8Encode P
  simp [decodePrivateKey, h1, h2]

theorem envGet_envSet_same (e : Env) (k v : String) : envGet (envSet e k v) k = some v := by
  induction e with
  | nil => simp [envSet, envGet]
  | cons p rest ih =>
    obtain ⟨k', v'⟩ := p
    rw [envSet]
    by_cases hk : k' = k
    · rw [if_pos hk, envGet, if_pos rfl]
    · rw [if_neg hk, envGet, if_neg hk, ih]

theorem envGet_envSet_ne (e : Env) (k v k' : String) (h : ¬ (k = k')) :
    envGet (envSet e k v) k' = envGet e k' := by
  induction e with
  | nil => simp [envSet, envGet, h]
  | cons p rest ih =>
    obtain ⟨k0, v0⟩ := p
    rw [envSet]
    by_cases hk : k0 = k
    · rw [if_pos hk, envGet, if_neg h, envGet, hk, if_neg h]
    · rw [if_neg hk, envGet, envGet, ih]

theorem resolveValue_other (k : String) (v : JValue) (h : ¬ (k = "github_private_key")) :
    resolveValue k v = .ok (pyStr v) := by
  rw [resolveValue, if_neg h]

theorem resolveValue_pk_ok (v : JValue) (dp : String) (h : decodePrivateKey v = .ok dp) :
    resolveValue "github_private_key" v = .ok dp := by
  rw [resolveValue, if_pos rfl, h]
  rfl

theorem resolveValue_pk_err (v : JValue) (cause : String)
    (h : decodePrivateKey v = .error cause) :
    resolveValue "github_private_key" v = .error (.decodeFailure cause) := by
  rw [resolveValue, if_pos rfl, h]

theorem publishLoop_nil (bundle : Bundle) (env : Env) :
    publishLoop bundle [] env = (none, env) := rfl

theorem publishLoop_cons_ok (bundle : Bundle) (k evar : String)
    (rest : List (String × String)) (env : Env) (s : String)
    (h : resolveValue k ((bundleFind bundle k).getD .jnull) = .ok s) :
    publishLoop bundle ((k, evar) :: rest) env = publishLoop bundle rest (envSet env evar s) := by
  simp only [publishLoop, h]

theorem publishLoop_cons_err (bundle : Bundle) (k evar : String)
    (rest : List (String × String)) (env : Env) (e : SecretLoadError)
    (h : resolveValue k ((bundleFind bundle k).getD .jnull) = .error e) :
    publishLoop bundle ((k, evar) :: rest) env = (some e, env) := by
  simp only [publishLoop, h]

theorem load_secrets_object (env0 : Env) (name s : String) (bundle : Bundle)
    (hname : envGet env0 "SECRETS_NAME" = some name) (hname' : ¬ (name = ""))
    (hs : ¬ (s = "")) :
    load_secrets env0 (.response (some s)) (.object bundle)
      = (if ((SECRET_ENV_MAPPING.map Prod.fst).filter
            (fun k => (bundleFind bundle k).isNone)).isEmpty then
          match publishLoop bundle SECRET_ENV_MAPPING env0 with
          | (some e, env1) => ⟨.error e, env1, true⟩
          | (none, env1) =>
            ⟨.ok (SECRET_ENV_MAPPING.map (fun p => (p.2, (envGet env1 p.2).getD ""))),
             env1, true⟩
        else ⟨.error (.missingSecrets ((SECRET_ENV_MAPPING.map Prod.fst).filter
            (fun k => (bundleFind bundle k).isNone))), env0, true⟩) := by
  unfold load_secrets
  simp only [hname]
  rw [if_neg hname', if_neg hs]

theorem load_secrets_success_eq (env0 : Env) (name s : String) (bundle : Bundle)
    (v0 v1 v2 vp : JValue) (dp : String)
    (hname : envGet env0 "SECRETS_NAME" = some name) (hname' : ¬ (name = ""))
    (hs : ¬ (s = ""))
    (h0 : bundleFind bundle "openai_key" = some v0)
    (h1 : bundleFind bundle "github_app_id" = some v1)
    (h2 : bundleFind bundle "github_webhook_secret" = some v2)
    (h3 : bundleFind bundle "github_private_key" = some vp)
    (hdp : decodePrivateKey vp = .ok dp) :
    load_secrets env0 (.response (some s)) (.object bundle)
      = ⟨.ok [("DYNACONF_OPENAI__KEY", pyStr v0),
              ("DYNACONF_GITHUB__APP_ID", pyStr v1),
              ("DYNACONF_GITHUB__WEBHOOK_SECRET", pyStr v2),
              ("DYNACONF_GITHUB__PRIVATE_KEY", dp)],
         envSet (envSet (envSet (envSet env0 "DYNACONF_OPENAI__KEY" (pyStr v0))
             "DYNACONF_GITHUB__APP_ID" (pyStr v1))
             "DYNACONF_GITHUB__WEBHOOK_SECRET" (pyStr v2))
             "DYNACONF_GITHUB__PRIVATE_KEY" dp,
         true⟩ := by
  rw [load_secrets_object env0 name s bundle hname hname' hs]
  have hf : ((SECRET_ENV_MAPPING.map Prod.fst).filter
      (fun k => (bundleFind bundle k).isNone)).isEmpty = true := by
    simp [SECRET_ENV_MAPPING, h0, h1, h2, h3]
  rw [if_pos hf]
  have e0 : resolveValue "openai_key" ((bundleFind bundle "openai_key").getD .jnull)
      = .ok (pyStr v0) := by
    rw [h0, Option.getD_some, resolveValue_other _ _ (by decide)]
  have e1 : resolveValue "github_app_id" ((bundleFind bundle "github_app_id").getD .jnull)
      = .ok (pyStr v1) := by
    rw [h1, Option.getD_some, resolveValue_other _ _ (by decide)]
  have e2 : resolveValue "github_webhook_secret"
      ((bundleFind bundle "github_webhook_secret").getD .jnull) = .ok (pyStr v2) := by
    rw [h2, Option.getD_some, resolveValue_other _ _ (by decide)]
  have e3 : resolveValue "github_private_key"
      ((bundleFind bundle "github_private_key").getD .jnull) = .ok dp := by
    rw [h3, Option.getD_some, resolveValue_pk_ok _ _ hdp]
  rw [show SECRET_ENV_MAPPING
      = ("openai_key", "DYNACONF_OPENAI__KEY")
        :: ("github_app_id", "DYNACONF_GITHUB__APP_ID")
        :: ("github_webhook_secret", "DYNACONF_GITHUB__WEBHOOK_SECRET")
        :: ("github_private_key", "DYNACONF_GITHUB__PRIVATE_KEY") :: [] from rfl]
  rw [publishLoop_cons_ok _ _ _ _ _ _ e0, publishLoop_cons_ok _ _ _ _ _ _ e1,
    publishLoop_cons_ok _ _ _ _ _ _ e2, publishLoop_cons_ok _ _ _ _ _ _ e3,
    publishLoop_nil]
  have g0 : envGet (envSet (envSet (envSet (envSet env0 "DYNACONF_OPENAI__KEY" (pyStr v0))
      "DYNACONF_GITHUB__APP_ID" (pyStr v1)) "DYNACONF_GITHUB__WEBHOOK_SECRET" (pyStr v2))
      "DYNACONF_GITHUB__PRIVATE_KEY" dp) "DYNACONF_OPENAI__KEY" = some (pyStr v0) := by
    rw [envGet_envSet_ne _ _ _ _ (by decide), envGet_envSet_ne _ _ _ _ (by decide),
      envGet_envSet_ne _ _ _ _ (by decide), envGet_envSet_same]
  have g1 : envGet (envSet (envSet (envSet (envSet env0 "DYNACONF_OPENAI__KEY" (pyStr v0))
      "DYNACONF_GITHUB__APP_ID" (pyStr v1)) "DYNACONF_GITHUB__WEBHOOK_SECRET" (pyStr v2))
      "DYNACONF_GITHUB__PRIVATE_KEY" dp) "DYNACONF_GITHUB__APP_ID" = some (pyStr v1) := by
    rw [envGet_envSet_ne _ _ _ _ (by decide), envGet_envSet_ne _ _ _ _ (by decide),
      envGet_envSet_same]
  have g2 : envGet (envSet (envSet (envSet (envSet env0 "DYNACONF_OPENAI__KEY" (pyStr v0))
      "DYNACONF_GITHUB__APP_ID" (pyStr v1)) "DYNACONF_GITHUB__WEBHOOK_SECRET" (pyStr v2))
      "DYNACONF_GITHUB__PRIVATE_KEY" dp) "DYNACONF_GITHUB__WEBHOOK_SECRET"
      = some (pyStr v2) := by
    rw [envGet_envSet_ne _ _ _ _ (by decide), envGet_envSet_same]
  have g3 : envGet (envSet (envSet (envSet (envSet env0 "DYNACONF_OPENAI__KEY" (pyStr v0))
      "DYNACONF_GITHUB__APP_ID" (pyStr v1)) "DYNACONF_GITHUB__WEBHOOK_SECRET" (pyStr v2))
      "DYNACONF_GITHUB__PRIVATE_KEY" dp) "DYNACONF_GITHUB__PRIVATE_KEY" = some dp := by
    rw [envGet_envSet_same]
  simp only [SECRET_ENV_MAPPING, List.map_cons, List.map_nil, g0, g1, g2, g3,
    Option.getD_some]

theorem load_secrets_decode_fail_eq (env0 : Env) (name s : String) (bundle : Bundle)
    (v0 v1 v2 vp : JValue) (cause : String)
    (hname : envGet env0 "SECRETS_NAME" = some name) (hname' : ¬ (name = ""))
    (hs : ¬ (s = ""))
    (h0 : bundleFind bundle "openai_key" = some v0)
    (h1 : bundleFind bundle "github_app_id" = some v1)
    (h2 : bundleFind bundle "github_webhook_secret" = some v2)
    (h3 : bundleFind bundle "github_private_key" = some vp)
    (hdp : decodePrivateKey vp = .error cause) :
    load_secrets env0 (.response (some s)) (.object bundle)
      = ⟨.error (.decodeFailure cause),
         envSet (envSet (envSet env0 "DYNACONF_OPENAI__KEY" (pyStr v0))
             "DYNACONF_GITHUB__APP_ID" (pyStr v1))
             "DYNACONF_GITHUB__WEBHOOK_SECRET" (pyStr v2),
         true⟩ := by
  rw [load_secrets_object env0 name s bundle hname hname' hs]
  have hf : ((SECRET_ENV_MAPPING.map Prod.fst).filter
      (fun k => (bundleFind bundle k).isNone)).isEmpty = true := by
    simp [SECRET_ENV_MAPPING, h0, h1, h2, h3]
  rw [if_pos hf]
  have e0 : resolveValue "openai_key" ((bundleFind bundle "openai_key").getD .jnull)
      = .ok (pyStr v0) := by
    rw [h0, Option.getD_some, resolveValue_other _ _ (by decide)]
  have e1 : resolveValue "github_app_id" ((bundleFind bundle "github_app_id").getD .jnull)
      = .ok (pyStr v1) := by
    rw [h1, Option.getD_some, resolveValue_other _ _ (by decide)]
  have e2 : resolveValue "github_webhook_secret"
      ((bundleFind bundle "github_webhook_secret").getD .jnull) = .ok (pyStr v2) := by
    rw [h2, Option.getD_some, resolveValue_other _ _ (by decide)]
  have e3 : resolveValue "github_private_key"
      ((bundleFind bundle "github_private_key").getD .jnull)
      = .error (.decodeFailure cause) := by
    rw [h3, Option.getD_some, resolveValue_pk_err _ _ hdp]
  rw [show SECRET_ENV_MAPPING
      = ("openai_key", "DYNACONF_OPENAI__KEY")
        :: ("github_app_id", "DYNACONF_GITHUB__APP_ID")
        :: ("github_webhook_secret", "DYNACONF_GITHUB__WEBHOOK_SECRET")
        :: ("github_private_key", "DYNACONF_GITHUB__PRIVATE_KEY") :: [] from rfl]
  rw [publishLoop_cons_ok _ _ _ _ _ _ e0, publishLoop_cons_ok _ _ _ _ _ _ e1,
    publishLoop_cons_ok _ _ _ _ _ _ e2, publishLoop_cons_err _ _ _ _ _ _ e3]

theorem load_secrets_missing_eq (env0 : Env) (name s : String) (bundle : Bundle)
    (hname : envGet env0 "SECRETS_NAME" = some name) (hname' : ¬ (name = ""))
    (hs : ¬ (s = ""))
    (hmiss : ¬ ((SECRET_ENV_MAPPING.map Prod.fst).filter
        (fun k => (bundleFind bundle k).isNone)).isEmpty = true) :
    load_secrets env0 (.response (some s)) (.object bundle)
      = ⟨.error (.missingSecrets ((SECRET_ENV_MAPPING.map Prod.fst).filter
          (fun k => (bundleFind bundle k).isNone))), env0, true⟩ := by
  rw [load_secrets_object env0 name s bundle hname hname' hs, if_neg hmiss]

/-- C1: with every required key present but the encoded `github_private_key`
field failing to decode (value `"A"`), the bootstrap fails, yet the three
configuration names published before the failing entry remain written to the
environment; only the private-key configuration name is absent. The claimed
all-or-nothing behaviour does not hold: the loop writes each entry before
decoding the next. -/
theorem c1_decode_failure_keeps_earlier_writes :
    load_secrets [("SECRETS_NAME", "prod-secrets")] (.response (some "payload"))
        (.object [("openai_key", .jstr "sk-abc"), ("github_app_id", .jstr "123"),
                  ("github_webhook_secret", .jstr "whsec"), ("github_private_key", .jstr "A")])
      = ⟨.error (.decodeFailure "Invalid base64-encoded string"),
         [("SECRETS_NAME", "prod-secrets"), ("DYNACONF_OPENAI__KEY", "sk-abc"),
          ("DYNACONF_GITHUB__APP_ID", "123"), ("DYNACONF_GITHUB__WEBHOOK_SECRET", "whsec")],
         true⟩
    ∧ envGet [("SECRETS_NAME", "prod-secrets"), ("DYNACONF_OPENAI__KEY", "sk-abc"),
          ("DYNACONF_GITHUB__APP_ID", "123"), ("DYNACONF_GITHUB__WEBHOOK_SECRET", "whsec")]
        "DYNACONF_OPENAI__KEY" = some "sk-abc"
    ∧ envGet [("SECRETS_NAME", "prod-secrets"), ("DYNACONF_OPENAI__KEY", "sk-abc"),
          ("DYNACONF_GITHUB__APP_ID", "123"), ("DYNACONF_GITHUB__WEBHOOK_SECRET", "whsec")]
        "DYNACONF_GITHUB__PRIVATE_KEY" = none :=
  ⟨rfl, rfl, rfl⟩

/-- C2 counterexample: a bundle containing every key of the mapping table on
which publication nevertheless fails, because the `github_private_key` value
`"A"` does not decode. Containment of all four keys is stated explicitly. -/
theorem c2_all_keys_present_yet_failure :
    (∀ k ∈ SECRET_ENV_MAPPING.map Prod.fst,
      (bundleFind [("openai_key", JValue.jstr "sk-abc"), ("github_app_id", JValue.jstr "123"),
                   ("github_webhook_secret", JValue.jstr "whsec"),
                   ("github_private_key", JValue.jstr "A")] k).isSome = true)
    ∧ (load_secrets [("SECRETS_NAME", "prod-secrets")] (.response (some "payload"))
        (.object [("openai_key", .jstr "sk-abc"), ("github_app_id", .jstr "123"),
                  ("github_webhook_secret", .jstr "whsec"),
                  ("github_private_key", .jstr "A")])).result
      = .error (.decodeFailure "Invalid base64-encoded string") :=
  ⟨by decide, rfl⟩

/-- C2 (amended): for every secret bundle containing every SecretKey of the
mapping table *whose `github_private_key` value decodes successfully*,
publication succeeds and the returned mapping has exactly the mapping's four
entries, one for each published ConfigName, each bound to that key's decoded
(stringified) value. -/
theorem c2_completeness_success (env0 : Env) (name s : String) (bundle : Bundle)
    (v0 v1 v2 vp : JValue) (dp : String)
    (hname : envGet env0 "SECRETS_NAME" = some name) (hname' : ¬ (name = ""))
    (hs : ¬ (s = ""))
    (h0 : bundleFind bundle "openai_key" = some v0)
    (h1 : bundleFind bundle "github_app_id" = some v1)
    (h2 : bundleFind bundle "github_webhook_secret" = some v2)
    (h3 : bundleFind bundle "github_private_key" = some vp)
    (hdp : decodePrivateKey vp = .ok dp) :
    (load_secrets env0 (.response (some s)) (.object bundle)).result
      = .ok [("DYNACONF_OPENAI__KEY", pyStr v0),
             ("DYNACONF_GITHUB__APP_ID", pyStr v1),
             ("DYNACONF_GITHUB__WEBHOOK_SECRET", pyStr v2),
             ("DYNACONF_GITHUB__PRIVATE_KEY", dp)]
    ∧ SECRET_ENV_MAPPING.length = 4 := by
  rw [load_secrets_success_eq env0 name s bundle v0 v1 v2 vp dp hname hname' hs
    h0 h1 h2 h3 hdp]
  exact ⟨rfl, rfl⟩

/-- C2 witness: the spec's reference scenario, with the private key the
base64 encoding of `-----BEGIN KEY-----`. -/
theorem c2_witness :
    (load_secrets [("SECRETS_NAME", "prod-secrets")] (.response (some "payload"))
        (.object [("openai_key", .jstr "sk-abc"), ("github_app_id", .jstr "123"),
                  ("github_webhook_secret", .jstr "whsec"),
                  ("github_private_key", .jstr "LS0tLS1CRUdJTiBLRVktLS0tLQ==")])).result
      = .ok [("DYNACONF_OPENAI__KEY", "sk-abc"),
             ("DYNACONF_GITHUB__APP_ID", "123"),
             ("DYNACONF_GITHUB__WEBHOOK_SECRET", "whsec"),
             ("DYNACONF_GITHUB__PRIVATE_KEY", "-----BEGIN KEY-----")]
    ∧ SECRET_ENV_MAPPING.length = 4 :=
  c2_completeness_success _ "prod-secrets" "payload" _
    (.jstr "sk-abc") (.jstr "123") (.jstr "whsec")
    (.jstr "LS0tLS1CRUdJTiBLRVktLS0tLQ==") "-----BEGIN KEY-----"
    rfl (by decide) (by decide) rfl rfl rfl rfl rfl

/-- C3: for every bundle missing a non-empty subset of the required keys,
the bootstrap fails with the missing-keys error, and the reported list is
exactly the required keys absent from the bundle (in mapping order), i.e. as
a set it equals the set of missing required keys. -/
theorem c3_missing_key_reporting (env0 : Env) (name s : String) (bundle : Bundle)
    (hname : envGet env0 "SECRETS_NAME" = some name) (hname' : ¬ (name = ""))
    (hs : ¬ (s = ""))
    (hmiss : (SECRET_ENV_MAPPING.map Prod.fst).filter
        (fun k => (bundleFind bundle k).isNone) ≠ []) :
    (load_secrets env0 (.response (some s)) (.object bundle)).result
      = .error (.missingSecrets ((SECRET_ENV_MAPPING.map Prod.fst).filter
          (fun k => (bundleFind bundle k).isNone)))
    ∧ ∀ k, k ∈ (SECRET_ENV_MAPPING.map Prod.fst).filter
          (fun k => (bundleFind bundle k).isNone)
        ↔ (k ∈ SECRET_ENV_MAPPING.map Prod.fst ∧ bundleFind bundle k = none) := by
  constructor
  · rw [load_secrets_missing_eq env0 name s bundle hname hname' hs
      (by simpa [List.isEmpty_iff] using hmiss)]
  · intro k
    simp [List.mem_filter, Option.isNone_iff_eq_none]

/-- C3 witness: the spec's scenario with `openai_key` absent. -/
theorem c3_witness :
    (load_secrets [("SECRETS_NAME", "prod-secrets")] (.response (some "payload"))
        (.object [("github_app_id", .jstr "123"), ("github_webhook_secret", .jstr "whsec"),
                  ("github_private_key", .jstr "eA==")])).result
      = .error (.missingSecrets ["openai_key"])
    ∧ ∀ k, k ∈ (["openai_key"] : List String)
        ↔ (k ∈ SECRET_ENV_MAPPING.map Prod.fst
           ∧ bundleFind [("github_app_id", JValue.jstr "123"),
               ("github_webhook_secret", JValue.jstr "whsec"),
               ("github_private_key", JValue.jstr "eA==")] k = none) :=
  c3_missing_key_reporting _ "prod-secrets" "payload" _
    rfl (by decide) (by decide) (by decide)

/-- C4: when `SECRETS_NAME` is absent (or empty, which the falsiness test
also treats as unset), `load_secrets` returns the missing-identifier error
with the environment unchanged and the secret store never invoked
(`fetched = false`), for every possible store and parser behaviour. -/
theorem c4_fail_fast_missing_identifier (env0 : Env) (fetch : FetchOutcome)
    (parse : ParseOutcome)
    (h : envGet env0 "SECRETS_NAME" = none ∨ envGet env0 "SECRETS_NAME" = some "") :
    load_secrets env0 fetch parse = ⟨.error .missingSecretsName, env0, false⟩ := by
  rcases h with h | h
  · unfold load_secrets
    simp only [h]
  · unfold load_secrets
    simp only [h]
    simp only [if_true]

/-- C4 witness: an empty environment, with a store that would return a
payload and a parser that would return an object. -/
theorem c4_witness :
    load_secrets [] (.response (some "payload")) (.object [])
      = ⟨.error .missingSecretsName, [], false⟩ :=
  c4_fail_fast_missing_identifier [] _ _ (Or.inl rfl)

/-- C5: if the bundle is missing any required key, no environment write
happens at all (the final environment equals the initial one) and the run
does not succeed — the completeness check over all mapping keys gates the
publication loop, whatever the store outcome was. -/
theorem c5_incomplete_bundle_no_writes (env0 : Env) (fetch : FetchOutcome) (bundle : Bundle)
    (hmiss : (SECRET_ENV_MAPPING.map Prod.fst).filter
        (fun k => (bundleFind bundle k).isNone) ≠ []) :
    (load_secrets env0 fetch (.object bundle)).env = env0
    ∧ ∀ m, (load_secrets env0 fetch (.object bundle)).result ≠ .ok m := by
  suffices h : ∃ e fl, load_secrets env0 fetch (.object bundle)
      = ⟨.error e, env0, fl⟩ by
    obtain ⟨e, fl, h⟩ := h
    rw [h]
    exact ⟨rfl, fun m hm => by cases hm⟩
  cases heq : envGet env0 "SECRETS_NAME" with
  | none =>
    refine ⟨.missingSecretsName, false, ?_⟩
    unfold load_secrets
    simp only [heq]
  | some name =>
    by_cases hn : name = ""
    · refine ⟨.missingSecretsName, false, ?_⟩
      unfold load_secrets
      simp only [heq]
      rw [if_pos hn]
    · cases fetch with
      | raise msg =>
        refine ⟨.unexpected msg, true, ?_⟩
        unfold load_secrets
        simp only [heq]
        rw [if_neg hn]
      | response ss =>
        cases ss with
        | none =>
          refine ⟨.noSecretString name, true, ?_⟩
          unfold load_secrets
          simp only [heq]
          rw [if_neg hn]
        | some s =>
          by_cases hs : s = ""
          · refine ⟨.noSecretString name, true, ?_⟩
            unfold load_secrets
            simp only [heq]
            rw [if_neg hn, if_pos hs]
          · refine ⟨.missingSecrets ((SECRET_ENV_MAPPING.map Prod.fst).filter
              (fun k => (bundleFind bundle k).isNone)), true, ?_⟩
            exact load_secrets_missing_eq env0 name s bundle heq hn hs
              (by simpa [List.isEmpty_iff] using hmiss)

/-- C5 witness: the incomplete bundle of the C3 scenario leaves the initial
environment untouched. -/
theorem c5_witness :
    (load_secrets [("SECRETS_NAME", "prod-secrets")] (.response (some "payload"))
        (.object [("github_app_id", .jstr "123")])).env = [("SECRETS_NAME", "prod-secrets")]
    ∧ ∀ m, (load_secrets [("SECRETS_NAME", "prod-secrets")] (.response (some "payload"))
        (.object [("github_app_id", .jstr "123")])).result ≠ .ok m :=
  c5_incomplete_bundle_no_writes [("SECRETS_NAME", "prod-secrets")] _ _ (by decide)

/-- C6: decoding the base64 encoding of the UTF-8 bytes of any plaintext `P`
through the pipeline's `github_private_key` handling yields `P` unchanged,
and every other key's string value passes through the loop body unmodified. -/
theorem c6_decode_round_trip (P : String) (k v : String)
    (hk : ¬ (k = "github_private_key")) :
    resolveValue "github_private_key" (.jstr (b64encodeStr (utf8Encode P))) = .ok P
    ∧ resolveValue k (.jstr v) = .ok v := by
  constructor
  · exact resolveValue_pk_ok _ _ (decodePrivateKey_encode P)
  · rw [resolveValue_other _ _ hk]
    rfl

/-- C6 witness: round trip at `-----BEGIN KEY-----`, pass-through at
`openai_key`. -/
theorem c6_witness :
    resolveValue "github_private_key"
        (.jstr (b64encodeStr (utf8Encode "-----BEGIN KEY-----"))) = .ok "-----BEGIN KEY-----"
    ∧ resolveValue "openai_key" (.jstr "sk-abc") = .ok "sk-abc" :=
  c6_decode_round_trip "-----BEGIN KEY-----" "openai_key" "sk-abc" (by decide)

/-- C7 counterexample: `"!!!"` is not valid base64, yet the bootstrap does
not fail: lenient decoding discards the non-alphabet characters, decodes to
the empty byte string, and the run succeeds, publishing an empty private
key. -/
theorem c7_invalid_base64_accepted :
    b64decodeStr "!!!" = some []
    ∧ (load_secrets [("SECRETS_NAME", "prod-secrets")] (.response (some "payload"))
        (.object [("openai_key", .jstr "sk-abc"), ("github_app_id", .jstr "123"),
                  ("github_webhook_secret", .jstr "whsec"),
                  ("github_private_key", .jstr "!!!")])).result
      = .ok [("DYNACONF_OPENAI__KEY", "sk-abc"), ("DYNACONF_GITHUB__APP_ID", "123"),
             ("DYNACONF_GITHUB__WEBHOOK_SECRET", "whsec"),
             ("DYNACONF_GITHUB__PRIVATE_KEY", "")] :=
  ⟨rfl, rfl⟩

/-- C7 (amended): for every bundle whose `github_private_key` value makes
the decoding step raise (lenient base64 rejects it, its bytes are not valid
UTF-8, or it is not a string), the bootstrap fails with the decode error,
whose message names the private key. -/
theorem c7_decode_failure_reported (env0 : Env) (name s : String) (bundle : Bundle)
    (v0 v1 v2 vp : JValue) (cause : String)
    (hname : envGet env0 "SECRETS_NAME" = some name) (hname' : ¬ (name = ""))
    (hs : ¬ (s = ""))
    (h0 : bundleFind bundle "openai_key" = some v0)
    (h1 : bundleFind bundle "github_app_id" = some v1)
    (h2 : bundleFind bundle "github_webhook_secret" = some v2)
    (h3 : bundleFind bundle "github_private_key" = some vp)
    (hdp : decodePrivateKey vp = .error cause) :
    (load_secrets env0 (.response (some s)) (.object bundle)).result
      = .error (.decodeFailure cause)
    ∧ (SecretLoadError.decodeFailure cause).message
      = "Failed to decode base64 private key: " ++ cause := by
  rw [load_secrets_decode_fail_eq env0 name s bundle v0 v1 v2 vp cause hname hname' hs
    h0 h1 h2 h3 hdp]
  exact ⟨rfl, rfl⟩

/-- C7 witness: the value `"A"` (one base64 digit) makes decoding raise. -/
theorem c7_witness :
    (load_secrets [("SECRETS_NAME", "prod-secrets")] (.response (some "payload"))
        (.object [("openai_key", .jstr "sk-abc"), ("github_app_id", .jstr "123"),
                  ("github_webhook_secret", .jstr "whsec"),
                  ("github_private_key", .jstr "A")])).result
      = .error (.decodeFailure "Invalid base64-encoded string")
    ∧ (SecretLoadError.decodeFailure "Invalid base64-encoded string").message
      = "Failed to decode base64 private key: " ++ "Invalid base64-encoded string" :=
  c7_decode_failure_reported _ "prod-secrets" "payload" _
    (.jstr "sk-abc") (.jstr "123") (.jstr "whsec") (.jstr "A")
    "Invalid base64-encoded string"
    rfl (by decide) (by decide) rfl rfl rfl rfl rfl

/-- C8: failures abort the run and reach the caller: store-call exceptions
and parser exceptions are wrapped in the catch-all error carrying the cause,
whose message embeds the underlying context; pipeline-specific errors (here
the empty-payload error) reach the caller as raised, unwrapped. -/
theorem c8_error_propagation (env0 : Env) (name m s : String) (parse : ParseOutcome)
    (hname : envGet env0 "SECRETS_NAME" = some name) (hname' : ¬ (name = ""))
    (hs : ¬ (s = "")) :
    load_secrets env0 (.raise m) parse = ⟨.error (.unexpected m), env0, true⟩
    ∧ load_secrets env0 (.response (some s)) (.raise m) = ⟨.error (.unexpected m), env0, true⟩
    ∧ load_secrets env0 (.response none) parse = ⟨.error (.noSecretString name), env0, true⟩
    ∧ (SecretLoadError.unexpected m).message = "Failed to load secrets: " ++ m := by
  refine ⟨?_, ?_, ?_, rfl⟩
  · unfold load_secrets
    simp only [hname]
    rw [if_neg hname']
  · unfold load_secrets
    simp only [hname]
    rw [if_neg hname', if_neg hs]
  · unfold load_secrets
    simp only [hname]
    rw [if_neg hname']

/-- C8 witness: a store exception at a concrete environment. -/
theorem c8_witness :
    load_secrets [("SECRETS_NAME", "prod-secrets")] (.raise "boom") (.object [])
      = ⟨.error (.unexpected "boom"), [("SECRETS_NAME", "prod-secrets")], true⟩
    ∧ load_secrets [("SECRETS_NAME", "prod-secrets")] (.response (some "not-json"))
        (.raise "boom")
      = ⟨.error (.unexpected "boom"), [("SECRETS_NAME", "prod-secrets")], true⟩
    ∧ load_secrets [("SECRETS_NAME", "prod-secrets")] (.response none) (.object [])
      = ⟨.error (.noSecretString "prod-secrets"), [("SECRETS_NAME", "prod-secrets")], true⟩
    ∧ (SecretLoadError.unexpected "boom").message = "Failed to load secrets: " ++ "boom" :=
  c8_error_propagation [("SECRETS_NAME", "prod-secrets")] "prod-secrets" "boom" "not-json"
    (.object []) rfl (by decide) (by decide)

/-- C9: a response with no secret string (absent or empty) fails with the
empty-payload error naming the requested identifier, leaves the environment
untouched, and does not depend on the parser at all. -/
theorem c9_empty_payload (env0 : Env) (name : String) (parse parse' : ParseOutcome)
    (hname : envGet env0 "SECRETS_NAME" = some name) (hname' : ¬ (name = "")) :
    load_secrets env0 (.response none) parse = ⟨.error (.noSecretString name), env0, true⟩
    ∧ load_secrets env0 (.response (some "")) parse
      = ⟨.error (.noSecretString name), env0, true⟩
    ∧ load_secrets env0 (.response none) parse = load_secrets env0 (.response none) parse'
    ∧ (SecretLoadError.noSecretString name).message
      = "No secret string found in secret: " ++ name := by
  have ha : ∀ p : ParseOutcome, load_secrets env0 (.response none) p
      = ⟨.error (.noSecretString name), env0, true⟩ := by
    intro p
    unfold load_secrets
    simp only [hname]
    rw [if_neg hname']
  have hb : load_secrets env0 (.response (some "")) parse
      = ⟨.error (.noSecretString name), env0, true⟩ := by
    unfold load_secrets
    simp only [hname]
    rw [if_neg hname']
    simp only [if_true]
  refine ⟨ha parse, hb, ?_, rfl⟩
  rw [ha parse, ha parse']

/-- C9 witness: empty payload at a concrete environment is independent of
two distinct parser behaviours. -/
theorem c9_witness :
    load_secrets [("SECRETS_NAME", "prod-secrets")] (.response none) (.object [])
      = ⟨.error (.noSecretString "prod-secrets"), [("SECRETS_NAME", "prod-secrets")], true⟩
    ∧ load_secrets [("SECRETS_NAME", "prod-secrets")] (.response (some "")) (.object [])
      = ⟨.error (.noSecretString "prod-secrets"), [("SECRETS_NAME", "prod-secrets")], true⟩
    ∧ load_secrets [("SECRETS_NAME", "prod-secrets")] (.response none) (.object [])
      = load_secrets [("SECRETS_NAME", "prod-secrets")] (.response none) (.raise "boom")
    ∧ (SecretLoadError.noSecretString "prod-secrets").message
      = "No secret string found in secret: " ++ "prod-secrets" :=
  c9_empty_payload _ "prod-secrets" (.object []) (.raise "boom") rfl (by decide)

/-- C10: a non-string JSON value under a non-encoded key (an integer under
`github_app_id`) causes no error: it is coerced through `str()` and the
returned mapping binds its configuration name to exactly the string written
into the environment. -/
theorem c10_str_coercion (env0 : Env) (name s : String) (bundle : Bundle)
    (n : Int) (v0 v2 vp : JValue) (dp : String)
    (hname : envGet env0 "SECRETS_NAME" = some name) (hname' : ¬ (name = ""))
    (hs : ¬ (s = ""))
    (h0 : bundleFind bundle "openai_key" = some v0)
    (h1 : bundleFind bundle "github_app_id" = some (.jnum n))
    (h2 : bundleFind bundle "github_webhook_secret" = some v2)
    (h3 : bundleFind bundle "github_private_key" = some vp)
    (hdp : decodePrivateKey vp = .ok dp) :
    (load_secrets env0 (.response (some s)) (.object bundle)).result
      = .ok [("DYNACONF_OPENAI__KEY", pyStr v0),
             ("DYNACONF_GITHUB__APP_ID", toString n),
             ("DYNACONF_GITHUB__WEBHOOK_SECRET", pyStr v2),
             ("DYNACONF_GITHUB__PRIVATE_KEY", dp)]
    ∧ envGet (load_secrets env0 (.response (some s)) (.object bundle)).env
        "DYNACONF_GITHUB__APP_ID" = some (toString n)
    ∧ pyStr (.jnum n) = toString n := by
  rw [load_secrets_success_eq env0 name s bundle v0 (.jnum n) v2 vp dp hname hname' hs
    h0 h1 h2 h3 hdp]
  refine ⟨rfl, ?_, rfl⟩
  rw [show pyStr (.jnum n) = toString n from rfl]
  rw [envGet_envSet_ne _ _ _ _ (by decide), envGet_envSet_ne _ _ _ _ (by decide),
    envGet_envSet_same]

/-- C10 witness: the integer `123` under `github_app_id` is published as the
string `123`. -/
theorem c10_witness :
    (load_secrets [("SECRETS_NAME", "prod-secrets")] (.response (some "payload"))
        (.object [("openai_key", .jstr "sk-abc"), ("github_app_id", .jnum 123),
                  ("github_webhook_secret", .jstr "whsec"),
                  ("github_private_key", .jstr "eA==")])).result
      = .ok [("DYNACONF_OPENAI__KEY", "sk-abc"), ("DYNACONF_GITHUB__APP_ID", "123"),
             ("DYNACONF_GITHUB__WEBHOOK_SECRET", "whsec"),
             ("DYNACONF_GITHUB__PRIVATE_KEY", "x")]
    ∧ envGet (load_secrets [("SECRETS_NAME", "prod-secrets")] (.response (some "payload"))
        (.object [("openai_key", .jstr "sk-abc"), ("github_app_id", .jnum 123),
                  ("github_webhook_secret", .jstr "whsec"),
                  ("github_private_key", .jstr "eA==")])).env
        "DYNACONF_GITHUB__APP_ID" = some "123"
    ∧ pyStr (.jnum 123) = "123" :=
  c10_str_coercion _ "prod-secrets" "payload" _ 123
    (.jstr "sk-abc") (.jstr "whsec") (.jstr "eA==") "x"
    rfl (by decide) (by decide) rfl rfl rfl rfl rfl
